import Mathlib

/-!
Verification of the Spam-Detection dashboard (src/app.py) against its
natural-language specification.

The file shallowly embeds the parts of src/app.py that the claims are
about: the module-level indentation structure of the tab2 waterfall
block, the run_notebook job client (submit, poll-until-terminal,
fetch-output, parse), the Run-Fraud-Check button handler, the error
display branches, and the module-level streamlit caches.

HTTP responses, the JSON decoder and the status stream are abstract
parameters (an Env); the Lean functions mirror the Python control flow
over them.  Machine floats in the backoff computation only ever hold
exact dyadic values (1, 1.5, 2.25, ...), so they are embedded as
rationals.
-/

namespace SpamApp

/-! ## A model of the Python values the app manipulates -/

/-- Python values reachable in the app: None, bools, numbers (the app
only meets exact small floats and ints, embedded as rationals), strings,
lists and string-keyed dicts (JSON objects). -/
inductive PyVal where
  | none
  | bool (b : Bool)
  | num (q : ℚ)
  | str (s : String)
  | list (xs : List PyVal)
  | dict (entries : List (String × PyVal))

/-- Python truthiness, as used by `if notebook_output:` and
`if phone_number.strip():`. -/
def truthy : PyVal → Bool
  | PyVal.none => false
  | PyVal.bool b => b
  | PyVal.num q => decide (q ≠ 0)
  | PyVal.str s => decide (s ≠ "")
  | PyVal.list xs => !xs.isEmpty
  | PyVal.dict d => !d.isEmpty

/-! ## C1: the module does not tokenize — indentation model

Lines 192-210 of src/app.py (the `with tab2:` block).  Physical lines
199-208 are one logical line (open parentheses), so the logical lines of
the block and their leading-space counts are taken directly from the
source.  `checkLines` is Python's tokenizer indentation rule: after a
block-opening line the next logical line must be indented strictly
deeper; otherwise a line must sit at the top of the indent stack, a
deeper line is an unexpected-indent error, and a shallower line must
dedent to a level already on the stack. -/

/-- One logical source line: its first physical line number, its leading
space count, and whether it ends with a colon (opens a block). -/
structure SrcLine where
  lineNo : Nat
  indent : Nat
  opensBlock : Bool

/-- Dedent: pop the indent stack until the given indent is found exactly;
popping past it (no matching level) is an error. -/
def popIndent : List Nat → Nat → Option (List Nat)
  | [], _ => Option.none
  | t :: s, i =>
      if i = t then some (t :: s)
      else if i < t then popIndent s i
      else Option.none

/-- Run the indentation rule over logical lines, returning the line
number of the first indentation error, if any.  `expectDeeper` is true
right after a block-opening line. -/
def checkLines : List Nat → Bool → List SrcLine → Option Nat
  | _, _, [] => Option.none
  | stack, expectDeeper, l :: rest =>
      if expectDeeper then
        if stack.headD 0 < l.indent then
          checkLines (l.indent :: stack) l.opensBlock rest
        else some l.lineNo
      else if stack.headD 0 < l.indent then
        some l.lineNo
      else
        match popIndent stack l.indent with
        | some stack2 => checkLines stack2 l.opensBlock rest
        | Option.none => some l.lineNo

/-- The logical lines of the `with tab2:` block, src/app.py lines
192-210, with their measured leading-space counts. -/
def tab2Lines : List SrcLine :=
  [ ⟨192, 16, true⟩,   -- with tab2:
    ⟨194, 20, false⟩,  -- waterfall_data = notebook_output[...]
    ⟨195, 20, false⟩,  -- features = list(waterfall_data.keys())
    ⟨196, 20, false⟩,  -- shap_values = [...]
    ⟨199, 20, false⟩,  -- fig_waterfall = go.Figure(...)  (lines 199-208)
    ⟨209, 22, false⟩,  -- fig_waterfall.update_layout(...)
    ⟨210, 20, false⟩ ] -- st.plotly_chart(fig_waterfall, ...)

/-- First indentation error of the tab2 block, checked starting from the
enclosing indent stack of the `with tab2:` statement (module 0, button
`if` 4, spinner `with` 8, success `if` 12, its body 16). -/
def tab2IndentErrorLine : Option Nat :=
  checkLines [16, 12, 8, 4, 0] false tab2Lines

/-! ## C9: the module-level streamlit caches -/

/-- What each cached module-level function caches. -/
inductive CacheKind where
  | configValues
  | connectionHandle
  | runNotebookResults
  | plotlyLayout
  | modelFile
deriving DecidableEq

/-- A module-level function carrying a streamlit cache decorator. -/
structure CachedGlobal where
  fname : String
  kind : CacheKind
  ttlSeconds : Option Nat
deriving DecidableEq

/-- The cache decorators of src/app.py: st.cache_data on get_config
(line 12), st.cache_resource on get_connection (line 23), st.cache_data
with ttl=300 on run_notebook (line 38), st.cache_data on
get_plotly_layout (line 121).  No model file is loaded or cached in this
revision; scoring happens in the remote job. -/
def moduleCaches : List CachedGlobal :=
  [ ⟨"get_config", CacheKind.configValues, Option.none⟩,
    ⟨"get_connection", CacheKind.connectionHandle, Option.none⟩,
    ⟨"run_notebook", CacheKind.runNotebookResults, some 300⟩,
    ⟨"get_plotly_layout", CacheKind.plotlyLayout, Option.none⟩ ]

/-! ## C8: the Run Fraud Check click handler -/

/-- The characters stripped by Python str.strip() with no argument
(ASCII whitespace; the app only meets ASCII input). -/
def pyIsSpace (c : Char) : Bool :=
  c = ' ' || c = '\t' || c = '\n' || c = '\r' ||
  c = Char.ofNat 11 || c = Char.ofNat 12

/-- Python str.strip(): drop leading and trailing whitespace. -/
def pyStrip (s : String) : String :=
  String.mk (((s.data.dropWhile pyIsSpace).reverse.dropWhile pyIsSpace).reverse)

/-- Outcome of clicking Run Fraud Check (src/app.py lines 146-149 and
421-422): either run_notebook is invoked with the given argument, or a
warning is shown and nothing is submitted. -/
inductive ClickAction where
  | runCheck (phone : String)
  | warnInvalid
deriving DecidableEq

/-- Lines 147-149 / 421-422: `if phone_number.strip():` then
`run_notebook(phone_number.strip())`, else a warning. -/
def onRunFraudCheck (phone : String) : ClickAction :=
  if truthy (PyVal.str (pyStrip phone)) then ClickAction.runCheck (pyStrip phone)
  else ClickAction.warnInvalid

/-! ## The run_notebook job client (src/app.py lines 39-115) -/

/-- The submit-run HTTP response (response, line 58): its status code,
its body text, and the run_id field of its JSON body (read only when the
status code is 200). -/
structure SubmitResp where
  status_code : Nat
  text : String
  run_id : Nat

/-- A get-run-status HTTP response (status_response, line 76): the
life_cycle_state field (line 81, assumed present, as the code indexes it
unconditionally) and the optional result_state field (read with a
default at line 94). -/
structure StatusResp where
  life_cycle_state : String
  result_state : Option String

/-- The get-run-output HTTP response (output_response, line 99): its
status code and the result field of its notebook_output object
(`Option.none` when the field is absent or null, line 106). -/
structure OutputResp where
  status_code : Nat
  result : Option PyVal

/-- The external world run_notebook talks to: the submit response, the
stream of status responses (the k-th poll sees `status k`), the output
response, and the behaviour of json.loads on the result string
(`Option.none` models a decode exception, line 112). -/
structure Env where
  submit : SubmitResp
  status : Nat → StatusResp
  output : OutputResp
  jsonLoads : String → Option PyVal

/-- Observable actions of run_notebook, in order: the one job
submission, each status poll with the state it saw, each sleep with its
duration in seconds, and the output fetch. -/
inductive Event where
  | submitRun (phone : String)
  | pollStatus (k : Nat) (life_cycle_state : String)
  | sleepSec (seconds : ℚ)
  | fetchOutput
deriving DecidableEq

/-- The tuple of terminal states at line 83. -/
def terminalStates : List String :=
  ["TERMINATED", "SKIPPED", "INTERNAL_ERROR"]

/-- Line 83: `run_state in ("TERMINATED", "SKIPPED", "INTERNAL_ERROR")`. -/
def isTerminalState (s : String) : Bool :=
  terminalStates.contains s

/-- Line 74: `max_backoff = 5`. -/
def max_backoff : ℚ := 5

/-- Python builtin min on two floats (returns the first argument on
ties), as called at line 87. -/
def qmin (a b : ℚ) : ℚ := if a ≤ b then a else b

/-- The `while True:` loop of lines 75-88, with explicit fuel so that a
status stream with no terminal state is the `Option.none` (divergence)
case.  Each iteration polls, stops if the state is terminal, otherwise
sleeps `min(backoff, max_backoff)` and retries with backoff multiplied
by 1.5.  Returns the events and the index of the exiting poll. -/
def pollLoop (env : Env) (backoff : ℚ) (k : Nat) : Nat → Option (List Event × Nat)
  | 0 => Option.none
  | Nat.succ fuel =>
      let s := (env.status k).life_cycle_state
      if isTerminalState s then
        some ([Event.pollStatus k s], k)
      else
        match pollLoop env (backoff * (3 / 2)) (k + 1) fuel with
        | Option.none => Option.none
        | some (evs, n) =>
            some (Event.pollStatus k s :: Event.sleepSec (qmin backoff max_backoff) :: evs, n)

/-- The event list a terminating poll loop produces when it starts at
poll k with the given backoff and exits d polls later. -/
def pollTraceAux (env : Env) (backoff : ℚ) (k : Nat) : Nat → List Event
  | 0 => [Event.pollStatus k ((env.status k).life_cycle_state)]
  | Nat.succ d =>
      Event.pollStatus k ((env.status k).life_cycle_state)
        :: Event.sleepSec (qmin backoff max_backoff)
        :: pollTraceAux env (backoff * (3 / 2)) (k + 1) d

/-- Lines 97-113: the notebook output after a SUCCESS result.  None
unless the get-output call returns 200; the result field as is, except
that a string result is passed through json.loads, keeping the string
when decoding fails (bare except, line 112). -/
def fetchNotebookOutput (env : Env) : PyVal :=
  if env.output.status_code = 200 then
    match env.output.result with
    | Option.none => PyVal.none
    | some (PyVal.str s) =>
        match env.jsonLoads s with
        | some v => v
        | Option.none => PyVal.str s
    | some v => v
  else PyVal.none

/-- run_notebook (lines 39-115) over the abstract Env, also returning
its event trace.  A non-200 submit returns FAILED with an error dict
immediately (lines 64-65); otherwise the poll loop runs (divergence is
`Option.none`), the result_state is read from the last status response
with default UNKNOWN (line 94), and only a SUCCESS result fetches the
output (lines 98-113). -/
def run_notebook (env : Env) (phone_number : String) (fuel : Nat) :
    Option (List Event × String × PyVal) :=
  if env.submit.status_code ≠ 200 then
    some ([Event.submitRun phone_number],
          ("FAILED", PyVal.dict [("error", PyVal.str env.submit.text)]))
  else
    match pollLoop env 1 0 fuel with
    | Option.none => Option.none
    | some (evs, n) =>
        let result_state := ((env.status n).result_state).getD "UNKNOWN"
        if result_state = "SUCCESS" then
          some (Event.submitRun phone_number :: evs ++ [Event.fetchOutput],
                (result_state, fetchNotebookOutput env))
        else
          some (Event.submitRun phone_number :: evs, (result_state, PyVal.none))

/-- Recognizer for the submit event. -/
def isSubmitEvent : Event → Bool
  | Event.submitRun _ => true
  | _ => false

/-- Recognizer for a status poll that saw a terminal state. -/
def isTerminalPollEvent : Event → Bool
  | Event.pollStatus _ s => isTerminalState s
  | _ => false

/-- Recognizer for poll and sleep events (everything the loop emits). -/
def isPollOrSleepEvent : Event → Bool
  | Event.pollStatus _ _ => true
  | Event.sleepSec _ => true
  | _ => false

/-! ## The result handler of the UI (src/app.py lines 151, 417-420) -/

/-- The Python `in` operator with a string on the left: key membership
for dicts, substring for strings, equality-with-an-element for lists;
on None, numbers and bools it raises TypeError. -/
def pyContains (v : PyVal) (key : String) : Except String Bool :=
  match v with
  | PyVal.dict d => Except.ok (d.any (fun kv => decide (kv.1 = key)))
  | PyVal.str s =>
      Except.ok (decide (key = "") || decide (2 ≤ (s.splitOn key).length))
  | PyVal.list xs =>
      Except.ok (xs.any (fun x =>
        match x with
        | PyVal.str t => decide (t = key)
        | _ => false))
  | PyVal.none => Except.error "TypeError: argument of type NoneType is not iterable"
  | PyVal.num _ => Except.error "TypeError: argument of type float is not iterable"
  | PyVal.bool _ => Except.error "TypeError: argument of type bool is not iterable"

/-- Python subscription `v[key]` with a string key: dict lookup raising
KeyError on a missing key; TypeError on the other receiver types met
here. -/
def getItem (v : PyVal) (key : String) : Except String PyVal :=
  match v with
  | PyVal.dict d =>
      match d.lookup key with
      | some x => Except.ok x
      | Option.none => Except.error ("KeyError: " ++ key)
  | PyVal.str _ => Except.error "TypeError: string indices must be integers"
  | _ => Except.error "TypeError: object is not subscriptable"

/-- Python dict.get(key, default). -/
def pyDictGet (d : List (String × PyVal)) (key : String) (dflt : PyVal) : PyVal :=
  (d.lookup key).getD dflt

/-- str(v) as interpolated by an f-string.  The container cases render a
placeholder: no claim inspects the rendering of containers, only that
interpolation of an already-fetched value cannot fail. -/
def pyStr : PyVal → String
  | PyVal.none => "None"
  | PyVal.bool true => "True"
  | PyVal.bool false => "False"
  | PyVal.num q => toString q
  | PyVal.str s => s
  | PyVal.list _ => "<list>"
  | PyVal.dict _ => "<dict>"

/-- Fixed-point rendering of a rational with the given number of
decimals (the numeral Python prints for the exact values met here;
claims only depend on which values format at all, not on the digits). -/
def formatFixed (prec : Nat) (q : ℚ) : String :=
  let n : ℤ := ⌊q * ((10 : ℚ) ^ prec) + 1 / 2⌋
  let sign := if n < 0 then "-" else ""
  let a := n.natAbs
  let fs := toString (a % 10 ^ prec)
  sign ++ toString (a / 10 ^ prec) ++
    (if prec = 0 then "" else "." ++ String.mk (List.replicate (prec - fs.length) '0') ++ fs)

/-- Python format(v, ".Nf") as used by the f-strings at lines 163-164:
defined on numbers (and bools, which are ints in Python); a ValueError
on strings — the crash the fallback value of line 164 runs into — and a
TypeError on the remaining types. -/
def pyFormatFixed (prec : Nat) : PyVal → Except String String
  | PyVal.num q => Except.ok (formatFixed prec q)
  | PyVal.bool b => Except.ok (formatFixed prec (if b then 1 else 0))
  | PyVal.str _ => Except.error "ValueError: Unknown format code f for object of type str"
  | PyVal.none => Except.error "TypeError: unsupported format string passed to NoneType"
  | PyVal.list _ => Except.error "TypeError: unsupported format string passed to list"
  | PyVal.dict _ => Except.error "TypeError: unsupported format string passed to dict"

/-- Dict subscription `d[key]`: the value, or a KeyError. -/
def dictGetItem (d : List (String × PyVal)) (key : String) : Except String PyVal :=
  match d.lookup key with
  | some x => Except.ok x
  | Option.none => Except.error ("KeyError: " ++ key)

/-- The prediction-summary markdown of lines 158-164, on the (dict)
notebook output of a displayed success: phone number, prediction (plain
interpolation), anomaly score through format .4f, and processing time
through format .2f applied to
`notebook_output.get('time_taken_seconds', '?')`.  An Except.error is an
exception escaping the handler. -/
def renderPredictionSummary (phone : String) (d : List (String × PyVal)) :
    Except String (List String) := do
  let pred ← dictGetItem d "prediction"
  let score ← dictGetItem d "anomaly_score"
  let scoreStr ← pyFormatFixed 4 score
  let timeStr ← pyFormatFixed 2 (pyDictGet d "time_taken_seconds" (PyVal.str "?"))
  Except.ok
    [ "**Phone Number**: " ++ phone,
      "**Prediction**: " ++ pyStr pred,
      "**Anomaly Score**: " ++ scoreStr,
      "**Processing Time**: " ++ timeStr ++ "s" ]

/-- What the click handler does with the pair run_notebook returned. -/
inductive UIAction where
  | successDisplay
  | errorMsg (msg : String)
  | raised (err : String)
deriving DecidableEq

/-- The dispatch of lines 151, 417-420: the success display when result
is SUCCESS and the output truthy; otherwise
`elif "error" in notebook_output:` shows the error value, and the final
else shows a generic job-failed message.  A raising membership test or
subscription surfaces as `UIAction.raised`. -/
def handleResult (result : String) (out : PyVal) : UIAction :=
  if result = "SUCCESS" ∧ truthy out = true then UIAction.successDisplay
  else
    match pyContains out "error" with
    | Except.error e => UIAction.raised e
    | Except.ok true =>
        match getItem out "error" with
        | Except.ok v => UIAction.errorMsg ("❌ Error: " ++ pyStr v)
        | Except.error e => UIAction.raised e
    | Except.ok false => UIAction.errorMsg ("❌ Job failed: " ++ result)

/-! ## Concrete environments used by the witnesses -/

/-- Submit accepted; the run is pending for two polls, then terminates
successfully and its output JSON-decodes to the number 7. -/
def envSuccess : Env :=
  { submit := ⟨200, "ok", 7⟩,
    status := fun k =>
      if k < 2 then ⟨"PENDING", Option.none⟩ else ⟨"TERMINATED", some "SUCCESS"⟩,
    output := ⟨200, some (PyVal.str "7")⟩,
    jsonLoads := fun s => if s = "7" then some (PyVal.num 7) else Option.none }

/-- Submit accepted; the run never reaches a terminal state. -/
def envNoTerm : Env :=
  { submit := ⟨200, "ok", 7⟩,
    status := fun _ => ⟨"RUNNING", Option.none⟩,
    output := ⟨200, Option.none⟩,
    jsonLoads := fun _ => Option.none }

/-- Submit accepted; the run terminates at once with a FAILED result. -/
def envFailRun : Env :=
  { submit := ⟨200, "ok", 7⟩,
    status := fun _ => ⟨"TERMINATED", some "FAILED"⟩,
    output := ⟨200, Option.none⟩,
    jsonLoads := fun _ => Option.none }

/-- The submit call is rejected with a 403. -/
def envSubmitFail : Env :=
  { submit := ⟨403, "invalid token", 0⟩,
    status := fun _ => ⟨"RUNNING", Option.none⟩,
    output := ⟨200, Option.none⟩,
    jsonLoads := fun _ => Option.none }

/-! ## Theorems -/

-- Helper: stripping an all-whitespace string yields the empty string.
theorem pyStrip_eq_empty (s : String) (h : ∀ c ∈ s.data, pyIsSpace c = true) :
    pyStrip s = "" := by
  unfold pyStrip
  rw [List.dropWhile_eq_nil_iff.mpr h]
  rfl

-- Helper: a string with a non-whitespace character strips to a
-- nonempty string.
theorem pyStrip_ne_empty (s : String) (h : ∃ c ∈ s.data, pyIsSpace c = false) :
    pyStrip s ≠ "" := by
  obtain ⟨c, hc, hcf⟩ := h
  unfold pyStrip
  intro he
  have hdata : ((s.data.dropWhile pyIsSpace).reverse.dropWhile pyIsSpace).reverse = [] := by
    simpa using congrArg String.data he
  have h2 : (s.data.dropWhile pyIsSpace).reverse.dropWhile pyIsSpace = [] := by
    simpa using congrArg List.reverse hdata
  have hne : s.data.dropWhile pyIsSpace ≠ [] := by
    intro hnil
    have hforall := List.dropWhile_eq_nil_iff.mp hnil c hc
    rw [hcf] at hforall
    exact absurd hforall (by decide)
  have hhead := List.head_dropWhile_not pyIsSpace s.data hne
  have hmem : (s.data.dropWhile pyIsSpace).head hne ∈ (s.data.dropWhile pyIsSpace).reverse := by
    rw [List.mem_reverse]
    exact List.head_mem hne
  have hsp := List.dropWhile_eq_nil_iff.mp h2 _ hmem
  rw [hhead] at hsp
  exact absurd hsp (by decide)

-- Helper: poll and sleep events are neither the submit event nor the
-- output fetch.
theorem pollOrSleep_not_submit (e : Event) (h : isPollOrSleepEvent e = true) :
    isSubmitEvent e = false := by
  cases e <;> simp_all [isSubmitEvent, isPollOrSleepEvent]

theorem pollOrSleep_ne_fetch (e : Event) (h : isPollOrSleepEvent e = true) :
    e ≠ Event.fetchOutput := by
  cases e <;> simp_all [isPollOrSleepEvent]

-- Helper: a poll loop that returns exits at a terminal state, saw no
-- earlier terminal state, and emitted exactly the poll/sleep trace.
theorem pollLoop_sound (env : Env) :
    ∀ fuel backoff k evs n, pollLoop env backoff k fuel = some (evs, n) →
      k ≤ n
      ∧ isTerminalState ((env.status n).life_cycle_state) = true
      ∧ (∀ j, k ≤ j → j < n → isTerminalState ((env.status j).life_cycle_state) = false)
      ∧ evs = pollTraceAux env backoff k (n - k) := by
  intro fuel
  induction fuel with
  | zero =>
      intro b k evs n h
      exact absurd h (by simp [pollLoop])
  | succ f ih =>
      intro b k evs n h
      rw [pollLoop] at h
      by_cases ht : isTerminalState ((env.status k).life_cycle_state) = true
      · rw [if_pos ht] at h
        simp only [Option.some.injEq, Prod.mk.injEq] at h
        obtain ⟨hevs, hn⟩ := h
        subst hn
        refine ⟨le_rfl, ht, fun j hj1 hj2 => absurd (lt_of_le_of_lt hj1 hj2) (lt_irrefl k), ?_⟩
        rw [Nat.sub_self]
        exact hevs.symm
      · rw [if_neg ht] at h
        cases hrec : pollLoop env (b * (3 / 2)) (k + 1) f with
        | none =>
            rw [hrec] at h
            exact absurd h (by simp)
        | some p =>
            obtain ⟨evs2, n2⟩ := p
            rw [hrec] at h
            simp only [Option.some.injEq, Prod.mk.injEq] at h
            obtain ⟨hevs, hn⟩ := h
            subst hn
            obtain ⟨hk1, ht2, hpre, htr⟩ := ih (b * (3 / 2)) (k + 1) evs2 n2 hrec
            have htf : isTerminalState ((env.status k).life_cycle_state) = false := by
              simpa using ht
            refine ⟨by omega, ht2, ?_, ?_⟩
            · intro j hj1 hj2
              rcases Nat.eq_or_lt_of_le hj1 with hq | hq
              · exact hq ▸ htf
              · exact hpre j (by omega) hj2
            · rw [← hevs, htr]
              rw [show n2 - k = Nat.succ (n2 - (k + 1)) from by omega]
              rfl

-- Helper: while no terminal state appears, the loop never returns.
theorem pollLoop_none (env : Env) :
    ∀ fuel backoff k,
      (∀ j, k ≤ j → isTerminalState ((env.status j).life_cycle_state) = false) →
      pollLoop env backoff k fuel = Option.none := by
  intro fuel
  induction fuel with
  | zero => intro b k _; rfl
  | succ f ih =>
      intro b k h
      rw [pollLoop, if_neg (by simp [h k le_rfl]),
        ih (b * (3 / 2)) (k + 1) (fun j hj => h j (by omega))]

-- Helper: with enough fuel the loop returns at the first terminal
-- state, emitting exactly the poll/sleep trace.
theorem pollLoop_complete (env : Env) :
    ∀ fuel k backoff n, k ≤ n → n - k < fuel →
      isTerminalState ((env.status n).life_cycle_state) = true →
      (∀ j, k ≤ j → j < n → isTerminalState ((env.status j).life_cycle_state) = false) →
      pollLoop env backoff k fuel = some (pollTraceAux env backoff k (n - k), n) := by
  intro fuel
  induction fuel with
  | zero => intro k b n hkn hf _ _; exact absurd hf (Nat.not_lt_zero _)
  | succ f ih =>
      intro k b n hkn hf ht hnt
      rw [pollLoop]
      by_cases hk : k = n
      · subst hk
        rw [if_pos ht, Nat.sub_self]
        rfl
      · have hlt : k < n := lt_of_le_of_ne hkn hk
        have h0 := hnt k le_rfl hlt
        rw [if_neg (by simp [h0])]
        rw [ih (k + 1) (b * (3 / 2)) n (by omega) (by omega) ht
          (fun j hj1 hj2 => hnt j (by omega) hj2)]
        rw [show n - k = Nat.succ (n - (k + 1)) from by omega]
        rfl

-- Helper: the loop trace consists of poll and sleep events only.
theorem pollTraceAux_events (env : Env) :
    ∀ d backoff k e, e ∈ pollTraceAux env backoff k d → isPollOrSleepEvent e = true := by
  intro d
  induction d with
  | zero =>
      intro b k e he
      have he2 : e ∈ [Event.pollStatus k ((env.status k).life_cycle_state)] := he
      rw [List.mem_singleton] at he2
      subst he2
      rfl
  | succ d ih =>
      intro b k e he
      have he2 : e ∈ Event.pollStatus k ((env.status k).life_cycle_state)
          :: Event.sleepSec (qmin b max_backoff)
          :: pollTraceAux env (b * (3 / 2)) (k + 1) d := he
      rcases List.mem_cons.mp he2 with h1 | h12
      · subst h1; rfl
      · rcases List.mem_cons.mp h12 with h2 | h3
        · subst h2; rfl
        · exact ih (b * (3 / 2)) (k + 1) e h3

-- Helper: the exiting poll is in the loop trace.
theorem pollTraceAux_last_mem (env : Env) :
    ∀ d backoff k,
      Event.pollStatus (k + d) ((env.status (k + d)).life_cycle_state)
        ∈ pollTraceAux env backoff k d := by
  intro d
  induction d with
  | zero => intro b k; simp [pollTraceAux]
  | succ d ih =>
      intro b k
      have h := ih (b * (3 / 2)) (k + 1)
      rw [show k + 1 + d = k + (d + 1) from by omega] at h
      have goal2 : Event.pollStatus (k + (d + 1)) ((env.status (k + (d + 1))).life_cycle_state)
          ∈ Event.pollStatus k ((env.status k).life_cycle_state)
            :: Event.sleepSec (qmin b max_backoff)
            :: pollTraceAux env (b * (3 / 2)) (k + 1) d :=
        List.mem_cons.mpr (Or.inr (List.mem_cons.mpr (Or.inr h)))
      exact goal2

-- Helper: the first event of the loop trace is the first poll.
theorem pollTraceAux_head (env : Env) (backoff : ℚ) (k : Nat) :
    ∀ d, (pollTraceAux env backoff k d).head?
      = some (Event.pollStatus k ((env.status k).life_cycle_state)) := by
  intro d
  cases d <;> rfl

-- Helper: the loop trace in closed form: before the poll of index k+i
-- (for i from 1 to d) there is exactly one sleep, of duration
-- min(backoff * 1.5 to the power of (i-1), max_backoff).
theorem pollTraceAux_closed_form (env : Env) :
    ∀ d backoff k,
      pollTraceAux env backoff k d
        = ((List.range d).flatMap fun i =>
            [Event.pollStatus (k + i) ((env.status (k + i)).life_cycle_state),
             Event.sleepSec (qmin (backoff * (3 / 2) ^ i) max_backoff)])
          ++ [Event.pollStatus (k + d) ((env.status (k + d)).life_cycle_state)] := by
  intro d
  induction d with
  | zero => intro b k; simp [pollTraceAux]
  | succ d ih =>
      intro b k
      have hstep : pollTraceAux env b k (d + 1)
          = Event.pollStatus k ((env.status k).life_cycle_state)
            :: Event.sleepSec (qmin b max_backoff)
            :: pollTraceAux env (b * (3 / 2)) (k + 1) d := rfl
      rw [hstep, ih (b * (3 / 2)) (k + 1)]
      rw [List.range_succ_eq_map, List.flatMap_cons, List.flatMap_map]
      simp only [pow_zero, mul_one, Nat.add_zero, List.cons_append, List.nil_append,
        List.append_assoc]
      have hfm : ((List.range d).flatMap fun a =>
            [Event.pollStatus (k + Nat.succ a) ((env.status (k + Nat.succ a)).life_cycle_state),
             Event.sleepSec (qmin (b * (3 / 2) ^ Nat.succ a) max_backoff)])
          = (List.range d).flatMap fun i =>
            [Event.pollStatus (k + 1 + i) ((env.status (k + 1 + i)).life_cycle_state),
             Event.sleepSec (qmin (b * (3 / 2) * (3 / 2) ^ i) max_backoff)] :=
        List.flatMap_congr (fun i _ => by
          rw [show k + Nat.succ i = k + 1 + i from by omega]
          rw [show b * (3 / 2 : ℚ) ^ Nat.succ i = b * (3 / 2) * (3 / 2) ^ i from by
            rw [pow_succ]; ring])
      rw [hfm, show k + (d + 1) = k + 1 + d from by omega]

-- Helper: Python min coincides with the order-theoretic min.
theorem qmin_eq_min (a b : ℚ) : qmin a b = min a b :=
  (min_def a b).symm

-- Helper: the poll loop on envSuccess exits at poll 2.
theorem pollLoop_envSuccess_eval :
    pollLoop envSuccess 1 0 3 = some (pollTraceAux envSuccess 1 0 2, 2) :=
  pollLoop_complete envSuccess 3 0 1 2 (by omega) (by omega) (by decide)
    (fun j _ hj => by interval_cases j <;> decide)

-- Helper: run_notebook on envSuccess succeeds and decodes the output.
theorem run_notebook_envSuccess_eval :
    run_notebook envSuccess "555" 3
      = some (Event.submitRun "555" :: pollTraceAux envSuccess 1 0 2 ++ [Event.fetchOutput],
              ("SUCCESS", PyVal.num 7)) := by
  rw [run_notebook, if_neg (by decide), pollLoop_envSuccess_eval]
  rfl

-- Helper: run_notebook on envFailRun returns FAILED with a None output.
theorem run_notebook_envFailRun_eval :
    run_notebook envFailRun "555" 3
      = some ([Event.submitRun "555", Event.pollStatus 0 "TERMINATED"],
              ("FAILED", PyVal.none)) := by
  have hp := pollLoop_complete envFailRun 3 0 1 0 (by omega) (by omega) (by decide)
    (fun j _ hj => absurd hj (Nat.not_lt_zero j))
  rw [run_notebook, if_neg (by decide), hp]
  rfl

-- Helper: the three shapes of a returned run_notebook result.
theorem run_notebook_cases (env : Env) (phone : String) (fuel : Nat)
    (tr : List Event) (rs : String) (out : PyVal)
    (h : run_notebook env phone fuel = some (tr, rs, out)) :
    (env.submit.status_code ≠ 200
      ∧ tr = [Event.submitRun phone]
      ∧ rs = "FAILED" ∧ out = PyVal.dict [("error", PyVal.str env.submit.text)])
    ∨ (∃ n,
        env.submit.status_code = 200
        ∧ pollLoop env 1 0 fuel = some (pollTraceAux env 1 0 n, n)
        ∧ rs = ((env.status n).result_state).getD "UNKNOWN"
        ∧ ((rs = "SUCCESS"
              ∧ tr = Event.submitRun phone :: pollTraceAux env 1 0 n ++ [Event.fetchOutput]
              ∧ out = fetchNotebookOutput env)
           ∨ (rs ≠ "SUCCESS"
              ∧ tr = Event.submitRun phone :: pollTraceAux env 1 0 n
              ∧ out = PyVal.none))) := by
  rw [run_notebook] at h
  by_cases hs : env.submit.status_code ≠ 200
  · rw [if_pos hs] at h
    simp only [Option.some.injEq, Prod.mk.injEq] at h
    obtain ⟨h1, h2, h3⟩ := h
    exact Or.inl ⟨hs, h1.symm, h2.symm, h3.symm⟩
  · rw [if_neg hs] at h
    push_neg at hs
    cases hp : pollLoop env 1 0 fuel with
    | none =>
        rw [hp] at h
        exact absurd h (by simp)
    | some p =>
        obtain ⟨evs, n⟩ := p
        rw [hp] at h
        obtain ⟨-, -, -, htr⟩ := pollLoop_sound env fuel 1 0 evs n hp
        rw [Nat.sub_zero] at htr
        subst htr
        refine Or.inr ⟨n, hs, rfl, ?_⟩
        have h2 : (if ((env.status n).result_state).getD "UNKNOWN" = "SUCCESS" then
              some (Event.submitRun phone :: pollTraceAux env 1 0 n ++ [Event.fetchOutput],
                (((env.status n).result_state).getD "UNKNOWN", fetchNotebookOutput env))
            else
              some (Event.submitRun phone :: pollTraceAux env 1 0 n,
                (((env.status n).result_state).getD "UNKNOWN", PyVal.none)))
            = some (tr, rs, out) := h
        by_cases hsucc : ((env.status n).result_state).getD "UNKNOWN" = "SUCCESS"
        · rw [if_pos hsucc] at h2
          simp only [Option.some.injEq, Prod.mk.injEq] at h2
          obtain ⟨h1, hb, h3⟩ := h2
          refine ⟨hb.symm, Or.inl ⟨?_, h1.symm, h3.symm⟩⟩
          rw [← hb]
          exact hsucc
        · rw [if_neg hsucc] at h2
          simp only [Option.some.injEq, Prod.mk.injEq] at h2
          obtain ⟨h1, hb, h3⟩ := h2
          refine ⟨hb.symm, Or.inr ⟨?_, h1.symm, h3.symm⟩⟩
          rw [← hb]
          exact hsucc

/-- C2: run_notebook is the linear sequence submit, poll until terminal,
fetch output, parse: every returned trace has exactly one submission and
it comes first; on an accepted submit the loop stops at the first
terminal status response n, the returned state is the result_state of
that response (default UNKNOWN), the output fetch happens exactly when
that state is SUCCESS, and the returned output is then the fetched
result, with a string result JSON-decoded when decoding succeeds, and is
None for every non-SUCCESS state. -/
theorem run_notebook_linear_sequence (env : Env) (phone : String) (fuel : Nat)
    (tr : List Event) (rs : String) (out : PyVal)
    (h : run_notebook env phone fuel = some (tr, rs, out)) :
    tr.countP isSubmitEvent = 1
    ∧ tr.head? = some (Event.submitRun phone)
    ∧ (env.submit.status_code = 200 →
        ∃ n, isTerminalState ((env.status n).life_cycle_state) = true
          ∧ (∀ j, j < n → isTerminalState ((env.status j).life_cycle_state) = false)
          ∧ rs = ((env.status n).result_state).getD "UNKNOWN"
          ∧ ((Event.fetchOutput ∈ tr) ↔ rs = "SUCCESS")
          ∧ (rs = "SUCCESS" → out = fetchNotebookOutput env)
          ∧ (rs = "SUCCESS" → env.output.status_code = 200 →
              ∀ s v, env.output.result = some (PyVal.str s) → env.jsonLoads s = some v →
                out = v)
          ∧ (rs ≠ "SUCCESS" → out = PyVal.none)) := by
  rcases run_notebook_cases env phone fuel tr rs out h with
    ⟨hs, htr, hrs, hout⟩ | ⟨n, hs, hp, hrs, hcase⟩
  · subst htr
    exact ⟨rfl, rfl, fun h200 => absurd h200 hs⟩
  · obtain ⟨-, ht, hpre, -⟩ := pollLoop_sound env fuel 1 0 _ n hp
    have hz : (pollTraceAux env 1 0 n).countP isSubmitEvent = 0 :=
      List.countP_eq_zero.mpr (fun e he => by
        simp [pollOrSleep_not_submit e (pollTraceAux_events env n 1 0 e he)])
    rcases hcase with ⟨hsucc, htr, hout⟩ | ⟨hsucc, htr, hout⟩
    · subst htr
      refine ⟨?_, rfl, fun _ => ⟨n, ht, fun j hj => hpre j (Nat.zero_le j) hj, hrs,
        ⟨fun _ => hsucc, fun _ => by simp⟩, fun _ => hout, ?_, fun hne => absurd hsucc hne⟩⟩
      · simp [List.countP_cons, List.countP_append, hz, isSubmitEvent]
      · intro _ h200 s v hres hj
        rw [hout]
        simp [fetchNotebookOutput, h200, hres, hj]
    · subst htr
      have hnof : Event.fetchOutput ∉
          Event.submitRun phone :: pollTraceAux env 1 0 n := by
        intro hmem
        rcases List.mem_cons.mp hmem with h1 | h2
        · exact Event.noConfusion h1
        · exact pollOrSleep_ne_fetch _ (pollTraceAux_events env n 1 0 _ h2) rfl
      refine ⟨?_, rfl, fun _ => ⟨n, ht, fun j hj => hpre j (Nat.zero_le j) hj, hrs,
        ⟨fun hmem => absurd hmem hnof, fun hs2 => absurd hs2 hsucc⟩,
        fun hs2 => absurd hs2 hsucc, fun hs2 => absurd hs2 hsucc, fun _ => hout⟩⟩
      simp [List.countP_cons, hz, isSubmitEvent]

/-- C2 witness: the concrete successful run instantiates the linear
sequence: exactly one submission and it heads the trace. -/
theorem run_notebook_linear_sequence_witness :
    (Event.submitRun "555" :: pollTraceAux envSuccess 1 0 2 ++ [Event.fetchOutput]).countP
        isSubmitEvent = 1
    ∧ (Event.submitRun "555" :: pollTraceAux envSuccess 1 0 2
        ++ [Event.fetchOutput]).head? = some (Event.submitRun "555") := by
  have h := run_notebook_linear_sequence envSuccess "555" 3 _ _ _ run_notebook_envSuccess_eval
  exact ⟨h.1, h.2.1⟩

/-- C3: the poll loop exits exactly on the fixed terminal set: a state is
terminal exactly when it is TERMINATED, SKIPPED or INTERNAL_ERROR; the
exit poll saw a terminal state while every earlier poll did not (so the
exit is at the first terminal response); and in every run_notebook trace
the get-output request appears only after a poll that saw a terminal
state. -/
theorem poll_exit_terminal_and_output_order (env : Env) (phone : String) (fuel : Nat) :
    (∀ s, isTerminalState s = true ↔ (s = "TERMINATED" ∨ s = "SKIPPED" ∨ s = "INTERNAL_ERROR"))
    ∧ (∀ evs n, pollLoop env 1 0 fuel = some (evs, n) →
        isTerminalState ((env.status n).life_cycle_state) = true
        ∧ (∀ j, j < n → isTerminalState ((env.status j).life_cycle_state) = false)
        ∧ (∀ m, isTerminalState ((env.status m).life_cycle_state) = true → n ≤ m))
    ∧ (∀ tr rs out, run_notebook env phone fuel = some (tr, rs, out) →
        ∀ m, Event.fetchOutput ∈ tr.take m →
          ∃ e ∈ tr.take m, isTerminalPollEvent e = true) := by
  refine ⟨?_, ?_, ?_⟩
  · intro s
    simp [isTerminalState, terminalStates]
  · intro evs n h
    obtain ⟨-, ht, hpre, -⟩ := pollLoop_sound env fuel 1 0 evs n h
    refine ⟨ht, fun j hj => hpre j (Nat.zero_le j) hj, fun m hm => ?_⟩
    by_contra hlt
    push_neg at hlt
    rw [hpre m (Nat.zero_le m) hlt] at hm
    exact Bool.noConfusion hm
  · intro tr rs out h m hfm
    rcases run_notebook_cases env phone fuel tr rs out h with
      ⟨-, htr, -, -⟩ | ⟨n, -, hp, -, hcase⟩
    · subst htr
      have hmem := List.mem_of_mem_take hfm
      simp at hmem
    · obtain ⟨-, ht, -, -⟩ := pollLoop_sound env fuel 1 0 _ n hp
      rcases hcase with ⟨hsucc, htr, -⟩ | ⟨hsucc, htr, -⟩
      · subst htr
        by_cases hm : m ≤ (Event.submitRun phone :: pollTraceAux env 1 0 n).length
        · exfalso
          rw [show Event.submitRun phone :: pollTraceAux env 1 0 n ++ [Event.fetchOutput]
              = (Event.submitRun phone :: pollTraceAux env 1 0 n) ++ [Event.fetchOutput]
              from rfl, List.take_append_of_le_length hm] at hfm
          have hmem := List.mem_of_mem_take hfm
          rcases List.mem_cons.mp hmem with h1 | h2
          · exact Event.noConfusion h1
          · exact pollOrSleep_ne_fetch _ (pollTraceAux_events env n 1 0 _ h2) rfl
        · push_neg at hm
          rw [List.take_of_length_le (by simp at hm ⊢; omega)] at hfm
          refine ⟨Event.pollStatus n ((env.status n).life_cycle_state), ?_, ht⟩
          rw [List.take_of_length_le (by simp at hm ⊢; omega)]
          have hlast := pollTraceAux_last_mem env n 1 0
          rw [Nat.zero_add] at hlast
          exact List.mem_cons.mpr (Or.inr (List.mem_append.mpr (Or.inl hlast)))
      · subst htr
        exfalso
        have hmem := List.mem_of_mem_take hfm
        rcases List.mem_cons.mp hmem with h1 | h2
        · exact Event.noConfusion h1
        · exact pollOrSleep_ne_fetch _ (pollTraceAux_events env n 1 0 _ h2) rfl

/-- C3 witness: on the concrete environment the fixed set recognizes
TERMINATED, the exit poll at index 2 saw a terminal state and the two
earlier polls did not. -/
theorem poll_exit_terminal_witness :
    isTerminalState "TERMINATED" = true
    ∧ isTerminalState ((envSuccess.status 2).life_cycle_state) = true
    ∧ (∀ j, j < 2 → isTerminalState ((envSuccess.status j).life_cycle_state) = false) := by
  have h := poll_exit_terminal_and_output_order envSuccess "555" 3
  have h2 := h.2.1 (pollTraceAux envSuccess 1 0 2) 2 pollLoop_envSuccess_eval
  exact ⟨(h.1 "TERMINATED").mpr (Or.inl rfl), h2.1, h2.2.1⟩

/-- C4: with an accepted submit, run_notebook terminates exactly when
some status response reports a terminal life_cycle_state: if no response
is ever terminal the loop never returns, whatever the fuel (there is no
cancellation, iteration cap or timeout), and if the first terminal
response is the n-th then any fuel beyond n makes the loop stop exactly
there and run_notebook return. -/
theorem run_notebook_termination_iff (env : Env) (phone : String)
    (hs : env.submit.status_code = 200) :
    ((∀ k, isTerminalState ((env.status k).life_cycle_state) = false) →
        ∀ fuel, run_notebook env phone fuel = Option.none)
    ∧ (∀ n, isTerminalState ((env.status n).life_cycle_state) = true →
        (∀ j, j < n → isTerminalState ((env.status j).life_cycle_state) = false) →
        ∀ fuel, n < fuel →
          pollLoop env 1 0 fuel = some (pollTraceAux env 1 0 n, n)
          ∧ run_notebook env phone fuel ≠ Option.none) := by
  constructor
  · intro hall fuel
    rw [run_notebook, if_neg (not_not_intro hs),
      pollLoop_none env fuel 1 0 (fun j _ => hall j)]
  · intro n ht hpre fuel hf
    have hp := pollLoop_complete env fuel 0 1 n (Nat.zero_le n) (by omega) ht
      (fun j _ hj => hpre j hj)
    rw [Nat.sub_zero] at hp
    refine ⟨hp, ?_⟩
    intro hcon
    rw [run_notebook, if_neg (not_not_intro hs), hp] at hcon
    have hcon2 : (if ((env.status n).result_state).getD "UNKNOWN" = "SUCCESS" then
          some (Event.submitRun phone :: pollTraceAux env 1 0 n ++ [Event.fetchOutput],
            (((env.status n).result_state).getD "UNKNOWN", fetchNotebookOutput env))
        else
          some (Event.submitRun phone :: pollTraceAux env 1 0 n,
            (((env.status n).result_state).getD "UNKNOWN", PyVal.none)))
        = (Option.none : Option (List Event × String × PyVal)) := hcon
    by_cases hsucc : ((env.status n).result_state).getD "UNKNOWN" = "SUCCESS"
    · rw [if_pos hsucc] at hcon2
      exact Option.noConfusion hcon2
    · rw [if_neg hsucc] at hcon2
      exact Option.noConfusion hcon2

/-- C4 witness: with all-RUNNING statuses run_notebook returns nothing at
the concrete fuel, while a terminal status at poll 2 makes it return. -/
theorem run_notebook_termination_iff_witness :
    run_notebook envNoTerm "555" 5 = Option.none
    ∧ run_notebook envSuccess "555" 3 ≠ Option.none := by
  refine ⟨?_, ?_⟩
  · exact (run_notebook_termination_iff envNoTerm "555" rfl).1
      (fun _ => (by decide : isTerminalState "RUNNING" = false)) 5
  · exact ((run_notebook_termination_iff envSuccess "555" rfl).2 2 (by decide)
      (fun j hj => by interval_cases j <;> decide) 3 (by omega)).2

/-- C5: the sleep schedule is exactly min of 1.5 to the power (k-1) and
5 seconds between the k-th and (k+1)-th polls (1-indexed): with the
initial backoff 1, a terminating loop trace is poll 0, sleep
min(1.5 pow 0, 5), poll 1, sleep min(1.5 pow 1, 5), ..., poll n; the
first poll is the first event, so no sleep precedes it; the schedule is
deterministic (a function of the poll index only); and successive sleep
durations are non-decreasing. -/
theorem poll_backoff_schedule (env : Env) (fuel : Nat) (evs : List Event) (n : Nat)
    (h : pollLoop env 1 0 fuel = some (evs, n)) :
    evs = ((List.range n).flatMap fun k =>
            [Event.pollStatus k ((env.status k).life_cycle_state),
             Event.sleepSec (qmin ((3 / 2) ^ k) max_backoff)])
          ++ [Event.pollStatus n ((env.status n).life_cycle_state)]
    ∧ evs.head? = some (Event.pollStatus 0 ((env.status 0).life_cycle_state))
    ∧ (∀ j k2, j ≤ k2 →
        qmin ((3 / 2 : ℚ) ^ j) max_backoff ≤ qmin ((3 / 2 : ℚ) ^ k2) max_backoff) := by
  obtain ⟨-, -, -, htr⟩ := pollLoop_sound env fuel 1 0 evs n h
  rw [Nat.sub_zero] at htr
  refine ⟨?_, ?_, ?_⟩
  · rw [htr, pollTraceAux_closed_form env n 1 0]
    have hfm : ((List.range n).flatMap fun i =>
        [Event.pollStatus (0 + i) ((env.status (0 + i)).life_cycle_state),
         Event.sleepSec (qmin (1 * (3 / 2) ^ i) max_backoff)])
      = (List.range n).flatMap fun k =>
        [Event.pollStatus k ((env.status k).life_cycle_state),
         Event.sleepSec (qmin ((3 / 2) ^ k) max_backoff)] :=
      List.flatMap_congr (fun i _ => by rw [Nat.zero_add, one_mul])
    rw [hfm, Nat.zero_add]
  · rw [htr, pollTraceAux_head]
  · intro j k2 hjk
    rw [qmin_eq_min, qmin_eq_min]
    exact min_le_min (pow_le_pow_right₀ (by norm_num) hjk) le_rfl

/-- C5 witness: the loop trace on the concrete environment instantiates
the closed-form schedule, and the first two sleeps are non-decreasing. -/
theorem poll_backoff_schedule_witness :
    pollTraceAux envSuccess 1 0 2
      = ((List.range 2).flatMap fun k =>
          [Event.pollStatus k ((envSuccess.status k).life_cycle_state),
           Event.sleepSec (qmin ((3 / 2) ^ k) max_backoff)])
        ++ [Event.pollStatus 2 ((envSuccess.status 2).life_cycle_state)]
    ∧ qmin ((3 / 2 : ℚ) ^ 0) max_backoff ≤ qmin ((3 / 2 : ℚ) ^ 1) max_backoff := by
  have h := poll_backoff_schedule envSuccess 3 (pollTraceAux envSuccess 1 0 2) 2
    pollLoop_envSuccess_eval
  exact ⟨h.1, h.2.2 0 1 (by omega)⟩

/-- C6: a submit response with a status code other than 200 makes
run_notebook return the pair FAILED with an error dict holding the
response body, at once: its trace holds the submission only, so no
status poll and no output fetch is ever issued. -/
theorem submit_failure_returns_failed (env : Env) (phone : String) (fuel : Nat)
    (h : env.submit.status_code ≠ 200) :
    run_notebook env phone fuel
      = some ([Event.submitRun phone],
              ("FAILED", PyVal.dict [("error", PyVal.str env.submit.text)])) := by
  rw [run_notebook, if_pos h]

/-- C6 witness: a 403 submit on the concrete environment. -/
theorem submit_failure_returns_failed_witness :
    run_notebook envSubmitFail "555" 5
      = some ([Event.submitRun "555"],
              ("FAILED", PyVal.dict [("error", PyVal.str "invalid token")])) :=
  submit_failure_returns_failed envSubmitFail "555" 5 (by decide)

-- Helper: dict subscription with a present or missing key.
theorem dictGetItem_some (d : List (String × PyVal)) (key : String) (v : PyVal)
    (h : d.lookup key = some v) : dictGetItem d key = Except.ok v := by
  unfold dictGetItem
  rw [h]

theorem dictGetItem_none (d : List (String × PyVal)) (key : String)
    (h : d.lookup key = Option.none) :
    dictGetItem d key = Except.error ("KeyError: " ++ key) := by
  unfold dictGetItem
  rw [h]

/-- C7 counterexample: a failed run that got past submission reaches the
display code with a None output and raises instead of displaying:
run_notebook returns the pair (FAILED, None) when the only status
response is TERMINATED with result_state FAILED, and on that pair the
handler evaluates the membership test of the string error in None, which
is a TypeError, so the failure is neither caught nor displayed. -/
theorem handler_raises_on_none_output_cex :
    run_notebook envFailRun "555" 3
      = some ([Event.submitRun "555", Event.pollStatus 0 "TERMINATED"],
              ("FAILED", PyVal.none))
    ∧ handleResult "FAILED" PyVal.none
      = UIAction.raised "TypeError: argument of type NoneType is not iterable" :=
  ⟨run_notebook_envFailRun_eval, rfl⟩

/-- C7 amended: the handler displays an error message only when the
output supports the membership test: for a submit failure (the one case
in which run_notebook returns an error dict) it shows the error text,
and for a falsy dict it shows the generic job-failed message; but for
every other failed run the output is None and the membership test of
line 417 raises an unhandled TypeError instead of displaying anything. -/
theorem handler_error_display_amended (result txt : String) (h : result ≠ "SUCCESS") :
    handleResult result (PyVal.dict [("error", PyVal.str txt)])
      = UIAction.errorMsg ("❌ Error: " ++ txt)
    ∧ handleResult result PyVal.none
      = UIAction.raised "TypeError: argument of type NoneType is not iterable"
    ∧ handleResult result (PyVal.dict [])
      = UIAction.errorMsg ("❌ Job failed: " ++ result) := by
  refine ⟨?_, ?_, ?_⟩
  · unfold handleResult
    rw [if_neg (fun hc => h hc.1)]
    rfl
  · unfold handleResult
    rw [if_neg (fun hc => absurd hc.2 (by decide))]
    rfl
  · unfold handleResult
    rw [if_neg (fun hc => absurd hc.2 (by decide))]
    rfl

/-- C7 amended witness: the concrete FAILED result with an error dict
displays the error text, and with a None output raises the TypeError. -/
theorem handler_error_display_amended_witness :
    handleResult "FAILED" (PyVal.dict [("error", PyVal.str "boom")])
      = UIAction.errorMsg ("❌ Error: " ++ "boom")
    ∧ handleResult "FAILED" PyVal.none
      = UIAction.raised "TypeError: argument of type NoneType is not iterable" := by
  have h := handler_error_display_amended "FAILED" "boom" (by decide)
  exact ⟨h.1, h.2.1⟩

/-- C10: a successful run whose output dict lacks the key
time_taken_seconds can never be displayed: rendering the prediction
summary always ends in an exception — in particular, when a prediction
value is present and the anomaly score is numeric, the string fallback
value returned by get reaches the float format specifier .2f, which
raises the ValueError for a string operand. -/
theorem missing_time_key_render_error (phone : String) (d : List (String × PyVal))
    (hmiss : d.lookup "time_taken_seconds" = Option.none) :
    (∃ msg, renderPredictionSummary phone d = Except.error msg)
    ∧ (∀ pv q, d.lookup "prediction" = some pv →
        d.lookup "anomaly_score" = some (PyVal.num q) →
        renderPredictionSummary phone d
          = Except.error "ValueError: Unknown format code f for object of type str") := by
  have htime : pyDictGet d "time_taken_seconds" (PyVal.str "?") = PyVal.str "?" := by
    unfold pyDictGet
    rw [hmiss]
    rfl
  constructor
  · cases h1 : d.lookup "prediction" with
    | none =>
        refine ⟨"KeyError: " ++ "prediction", ?_⟩
        unfold renderPredictionSummary
        rw [dictGetItem_none d "prediction" h1]
        rfl
    | some pv =>
        cases h2 : d.lookup "anomaly_score" with
        | none =>
            refine ⟨"KeyError: " ++ "anomaly_score", ?_⟩
            unfold renderPredictionSummary
            rw [dictGetItem_some d "prediction" pv h1,
              dictGetItem_none d "anomaly_score" h2]
            rfl
        | some sv =>
            cases sv
            all_goals
              exact ⟨_, by
                unfold renderPredictionSummary
                rw [dictGetItem_some d "prediction" pv h1,
                  dictGetItem_some d "anomaly_score" _ h2, htime]
                rfl⟩
  · intro pv q h1 h2
    unfold renderPredictionSummary
    rw [dictGetItem_some d "prediction" pv h1,
      dictGetItem_some d "anomaly_score" (PyVal.num q) h2, htime]
    rfl

/-- C10 witness: a concrete success dict with a prediction and a numeric
score but no time key renders to the ValueError. -/
theorem missing_time_key_render_error_witness :
    renderPredictionSummary "555"
        [("prediction", PyVal.str "Fraud"), ("anomaly_score", PyVal.num 7)]
      = Except.error "ValueError: Unknown format code f for object of type str" :=
  (missing_time_key_render_error "555"
      [("prediction", PyVal.str "Fraud"), ("anomaly_score", PyVal.num 7)] rfl).2
    (PyVal.str "Fraud") 7 rfl rfl

/-- C1: src/app.py is not executable Python for any input: inside the
tab2 block, the statement at line 209 is indented deeper (22 spaces)
than its enclosing block (20 spaces) without a block having been opened,
so Python tokenization reports an indentation error at line 209 and no
behaviour of the module is reachable. -/
theorem app_module_indentation_error :
    tab2IndentErrorLine = some 209 := by decide

/-- C9 counterexample: the cross-interaction mutable state of src/app.py
is not a pair of caches consisting of a connection handle and a loaded
model file: the module holds four streamlit caches and none of them
caches a model file. -/
theorem caches_not_conn_model_pair_cex :
    ¬ (moduleCaches.map (fun c => c.kind)
        = [CacheKind.connectionHandle, CacheKind.modelFile])
    ∧ CacheKind.modelFile ∉ moduleCaches.map (fun c => c.kind)
    ∧ moduleCaches.length = 4 := by decide

/-- C9 amended: the process-local mutable state kept across interactions
consists of exactly four streamlit caches: configuration values, the
warehouse connection handle, run_notebook results (with a 300-second
ttl, the only cache with one), and the plotly layout dicts; no model
file is loaded or cached in this revision. -/
theorem caches_inventory_amended :
    moduleCaches.map (fun c => c.kind)
      = [CacheKind.configValues, CacheKind.connectionHandle,
         CacheKind.runNotebookResults, CacheKind.plotlyLayout]
    ∧ (∀ c ∈ moduleCaches, c.kind ≠ CacheKind.modelFile)
    ∧ (∀ c ∈ moduleCaches, c.ttlSeconds ≠ Option.none → c.fname = "run_notebook") := by
  refine ⟨rfl, ?_, ?_⟩ <;> decide

/-- C9 amended witness: the run_notebook cache entry instantiates the
inventory theorem. -/
theorem caches_inventory_amended_witness :
    (⟨"run_notebook", CacheKind.runNotebookResults, some 300⟩ : CachedGlobal).fname
      = "run_notebook" :=
  caches_inventory_amended.2.2
    ⟨"run_notebook", CacheKind.runNotebookResults, some 300⟩ (by decide) (by decide)

/-- C8: if the phone number is empty or whitespace-only, clicking Run
Fraud Check only shows a warning and submits nothing; any other input
invokes run_notebook with the whitespace-stripped phone number. -/
theorem empty_phone_disables_action (phone : String) :
    ((∀ c ∈ phone.data, pyIsSpace c = true) →
        onRunFraudCheck phone = ClickAction.warnInvalid)
    ∧ ((∃ c ∈ phone.data, pyIsSpace c = false) →
        onRunFraudCheck phone = ClickAction.runCheck (pyStrip phone)) := by
  constructor
  · intro h
    unfold onRunFraudCheck
    rw [pyStrip_eq_empty phone h]
    rfl
  · intro h
    unfold onRunFraudCheck
    have hne := pyStrip_ne_empty phone h
    simp [truthy, hne]

/-- C8 witness: a whitespace-only input warns; an input with spaces
around digits runs the check on the stripped digits. -/
theorem empty_phone_disables_action_witness :
    onRunFraudCheck "   " = ClickAction.warnInvalid
    ∧ onRunFraudCheck " 42 " = ClickAction.runCheck "42" := by
  constructor
  · exact (empty_phone_disables_action "   ").1 (by decide)
  · exact (empty_phone_disables_action " 42 ").2 ⟨'4', by decide, by decide⟩

end SpamApp
